import Mathlib

/-!
Shallow embedding of `src/step-page.tsx` (the `step-page` React wizard
component): the `StepPage` controller state, the `StepPages` step-list
registration and indicator rendering, the `StepItem` content gate, and the
`StepPageFooter` navigation handlers with their asynchronous gating hook.

Conventions used throughout:
* React `useState` cells become fields of an explicit state record; an
  operation returns the updated record.
* The controlled-mode `onStepChange` callback is modelled by an `emitted`
  list recording the arguments of each invocation, in order.
* Rendered output is modelled structurally (`Option` for a pane that may be
  absent, a record of the flags an indicator button carries).
* JS numbers holding step indices are modelled as `Int` (the code performs
  no rounding or overflow-relevant arithmetic on them); `totalSteps` comes
  from `steps.length` and is a `Nat`.
-/

/-- State owned by the `StepPage` root component:
`controlledStep` is the `currentStep` prop (`some` exactly when the
component is controlled), `internalStep` is the `useState(defaultStep)`
cell, and `totalSteps` is the `useState(0)` cell fed by registration. -/
structure StepPage where
  controlledStep : Option Int
  internalStep : Int
  totalSteps : Nat
deriving DecidableEq, Repr

/-- Source: `const isControlled = controlledStep !== undefined`. -/
def StepPage.isControlled (s : StepPage) : Bool :=
  s.controlledStep.isSome

/-- Source: `const currentStep = isControlled ? controlledStep : internalStep`. -/
def StepPage.currentStep (s : StepPage) : Int :=
  match s.controlledStep with
  | some c => c
  | none => s.internalStep

/-- Mounting `StepPage`: `useState(defaultStep)` initialises the internal
step, `useState(0)` initialises `totalSteps`; the `currentStep` prop (if
any) selects controlled mode. -/
def StepPage.init (controlledStep : Option Int) (defaultStep : Int) : StepPage :=
  { controlledStep := controlledStep, internalStep := defaultStep, totalSteps := 0 }

/-- Result of a controller operation: the new state together with the list
of arguments the external `onStepChange` callback was invoked with. -/
structure StepResult where
  state : StepPage
  emitted : List Int
deriving DecidableEq, Repr

/-- Source (`goToStep`):
`if (step < 1 || step > totalSteps) return;`
`if (isControlled) { onStepChange?.(step) } else { setInternalStep(step) }`. -/
def StepPage.goToStep (s : StepPage) (step : Int) : StepResult :=
  if step < 1 ∨ step > (s.totalSteps : Int) then { state := s, emitted := [] }
  else if s.isControlled then { state := s, emitted := [step] }
  else { state := { s with internalStep := step }, emitted := [] }

/-- Source: `const nextStep = () => { goToStep(currentStep + 1) }`. -/
def StepPage.nextStep (s : StepPage) : StepResult :=
  s.goToStep (s.currentStep + 1)

/-- Source: `const prevStep = () => { goToStep(currentStep - 1) }`. -/
def StepPage.prevStep (s : StepPage) : StepResult :=
  s.goToStep (s.currentStep - 1)

/-- Source (context value): `canGoNext: currentStep < totalSteps`. -/
def StepPage.canGoNext (s : StepPage) : Bool :=
  s.currentStep < (s.totalSteps : Int)

/-- Source (context value): `canGoPrev: currentStep > 1`. -/
def StepPage.canGoPrev (s : StepPage) : Bool :=
  s.currentStep > 1

/-- A step descriptor (`StepItemData`): required title, optional
description, optional icon (an opaque renderable, modelled by a handle). -/
structure StepItemData where
  title : String
  description : Option String
  icon : Option Nat
deriving DecidableEq, Repr

/-- Direct `setTotalSteps` call (the state setter injected into children). -/
def StepPage.setTotalSteps (s : StepPage) (total : Nat) : StepPage :=
  { s with totalSteps := total }

/-- The `StepPages` registration effect:
`React.useEffect(() => { setTotalSteps?.(steps.length) }, [steps.length, setTotalSteps])`
pushes the length of the declared step list into the controller. -/
def StepPage.registerSteps (s : StepPage) (steps : List StepItemData) : StepPage :=
  s.setTotalSteps steps.length

/-- The operations through which controller state evolves: the three
navigation operations of the context value, plus the step-list
registration side-channel. -/
inductive Op where
  | go (k : Int)
  | next
  | prev
  | register (steps : List StepItemData)
deriving DecidableEq, Repr

/-- Apply one operation to the controller state (discarding callback
emissions, which never feed back into state in the source). -/
def StepPage.applyOp (s : StepPage) (op : Op) : StepPage :=
  match op with
  | .go k => (s.goToStep k).state
  | .next => s.nextStep.state
  | .prev => s.prevStep.state
  | .register steps => s.registerSteps steps

/-- Run a sequence of operations from a state. -/
def StepPage.run (s : StepPage) (ops : List Op) : StepPage :=
  ops.foldl StepPage.applyOp s

/-- A controller state is reachable when some initial configuration and some
operation sequence produce it. -/
def StepPage.Reachable (s : StepPage) : Prop :=
  ∃ controlled d ops, StepPage.run (StepPage.init controlled d) ops = s

/-- The spec invariant on navigation state:
`1 ≤ currentStep ≤ max(totalSteps, 1)`. -/
def StepPage.Inv (s : StepPage) : Prop :=
  1 ≤ s.currentStep ∧ s.currentStep ≤ max (s.totalSteps : Int) 1

instance (s : StepPage) : Decidable s.Inv := by
  unfold StepPage.Inv
  infer_instance

/-- Source (`StepItem`):
`if (currentStep !== step) return null` and otherwise the children wrapped
in a div; `none` models null output (logically absent). -/
def StepItem {α : Type} (currentStep : Int) (step : Int) (children : α) : Option α :=
  if currentStep ≠ step then none else some children

/-- Output of a list of content panes, each declaring its step number:
the panes whose `StepItem` produces output, in order. -/
def renderedPanes {α : Type} (currentStep : Int) (panes : List (Int × α)) : List α :=
  panes.filterMap (fun p => StepItem currentStep p.1 p.2)

/-- The observable attributes of one indicator button rendered by
`StepPages` (per-step flags and the `disabled` attribute of the button). -/
structure Indicator where
  stepNumber : Int
  isActive : Bool
  isCompleted : Bool
  isClickable : Bool
  disabled : Bool
deriving DecidableEq, Repr

/-- Source (`StepPages` body): for each `index`,
`stepNumber = index + 1`, `isActive = stepNumber === currentStep`,
`isCompleted = stepNumber < currentStep`,
`isClickable = stepNumber <= currentStep`, and the button carries
`disabled={!isClickable}`. -/
def renderIndicators (steps : List StepItemData) (currentStep : Int) : List Indicator :=
  (List.range steps.length).map (fun (index : Nat) =>
    let stepNumber : Int := (index : Int) + 1
    { stepNumber := stepNumber
      isActive := stepNumber == currentStep
      isCompleted := decide (stepNumber < currentStep)
      isClickable := decide (stepNumber ≤ currentStep)
      disabled := !(decide (stepNumber ≤ currentStep)) })

/-- Source: `onClick={() => isClickable && goToStep(stepNumber)}` — the
click handler of an indicator guards the jump on `isClickable`. -/
def indicatorClick (s : StepPage) (ind : Indicator) : StepResult :=
  if ind.isClickable then s.goToStep ind.stepNumber else { state := s, emitted := [] }

/-- State owned by `StepPageFooter`: the controller context it reads and
the `useState(false)` cell `isLoading`. -/
structure Footer where
  page : StepPage
  isLoading : Bool
deriving DecidableEq, Repr

/-- Observable outcome of a footer handler run to completion: the footer
state afterwards, the `onStepChange` invocations made by the committed
navigation (if any), and the settled result of the returned promise
(`Except.error e` when the hook rejection propagated to the caller). -/
structure HandlerResult (E : Type) where
  footer : Footer
  emitted : List Int
  outcome : Except E Unit
deriving Repr

/-- Source (`handleNext`):
`setIsLoading(true); try { await onNext?.(); nextStep() } finally { setIsLoading(false) }`.
The awaited hook is modelled by its settled result: on `ok` the handler
commits via `nextStep`; on `error` the body is abandoned before `nextStep`,
the `finally` clause still clears `isLoading`, and the rejection propagates
as the handler outcome (there is no catch clause). -/
def Footer.handleNext {E : Type} (f : Footer) (hookResult : Except E Unit) : HandlerResult E :=
  let loading : Footer := { f with isLoading := true }
  match hookResult with
  | .ok _ =>
    let r := loading.page.nextStep
    { footer := { page := r.state, isLoading := false }, emitted := r.emitted, outcome := .ok () }
  | .error e =>
    { footer := { loading with isLoading := false }, emitted := [], outcome := .error e }

/-- Source (`handlePrev`): identical to `handleNext` with `onPrev` and
`prevStep`. -/
def Footer.handlePrev {E : Type} (f : Footer) (hookResult : Except E Unit) : HandlerResult E :=
  let loading : Footer := { f with isLoading := true }
  match hookResult with
  | .ok _ =>
    let r := loading.page.prevStep
    { footer := { page := r.state, isLoading := false }, emitted := r.emitted, outcome := .ok () }
  | .error e =>
    { footer := { loading with isLoading := false }, emitted := [], outcome := .error e }

/-- Which handler invocation is suspended at its `await`, if any. -/
inductive Pending where
  | idle
  | forNext
  | forPrev
deriving DecidableEq, Repr

/-- The footer viewed as an event-driven machine, making the suspension
point of a pending async hook explicit: `isLoading` is the rendered
loading flag and `pending` records the handler suspended at its `await`. -/
structure FooterMachine where
  page : StepPage
  isLoading : Bool
  pending : Pending
deriving DecidableEq, Repr

/-- Source (default actions): `disabled={!canGoNext || isLoading}` on the
next button. -/
def FooterMachine.nextDisabled (m : FooterMachine) : Bool :=
  !m.page.canGoNext || m.isLoading

/-- Source (default actions): `disabled={!canGoPrev || isLoading}` on the
previous button. -/
def FooterMachine.prevDisabled (m : FooterMachine) : Bool :=
  !m.page.canGoPrev || m.isLoading

/-- Events the footer machine reacts to: a user click on a default button
(delivered only when the button is enabled — a disabled button fires no
handler) and the settling of the awaited hook (`true` = resolved,
`false` = rejected). -/
inductive FooterEvent where
  | clickNext
  | clickPrev
  | settle (ok : Bool)
deriving DecidableEq, Repr

/-- One machine transition; the second component counts controller
navigation commits (`nextStep`/`prevStep` invocations) the event caused.
A click on a disabled button is ignored; an enabled click enters the
handler, which sets `isLoading` and suspends at its `await`; a settle
event resumes the suspended handler: on resolution it commits and clears
`isLoading`, on rejection the `finally` clause clears `isLoading` without
a commit. -/
def FooterMachine.step (m : FooterMachine) (ev : FooterEvent) : FooterMachine × Nat :=
  match ev with
  | .clickNext =>
    if m.nextDisabled then (m, 0)
    else ({ m with isLoading := true, pending := .forNext }, 0)
  | .clickPrev =>
    if m.prevDisabled then (m, 0)
    else ({ m with isLoading := true, pending := .forPrev }, 0)
  | .settle ok =>
    match m.pending with
    | .idle => (m, 0)
    | .forNext =>
      if ok then ({ page := m.page.nextStep.state, isLoading := false, pending := .idle }, 1)
      else ({ m with isLoading := false, pending := .idle }, 0)
    | .forPrev =>
      if ok then ({ page := m.page.prevStep.state, isLoading := false, pending := .idle }, 1)
      else ({ m with isLoading := false, pending := .idle }, 0)

/-- Total number of navigation commits along an event trace. -/
def FooterMachine.runCommits (m : FooterMachine) (evs : List FooterEvent) : Nat :=
  match evs with
  | [] => 0
  | ev :: rest =>
    let r := m.step ev
    r.2 + FooterMachine.runCommits r.1 rest

/-- The three step descriptors used in the usage example of the repository
(titles A, B, C). -/
def exampleSteps : List StepItemData :=
  [{ title := "A", description := none, icon := none },
   { title := "B", description := none, icon := none },
   { title := "C", description := none, icon := none }]

/-- C1: `goToStep(target)` is a no-op (state unchanged, no callback) when
`target < 1` or `target > totalSteps`; for an in-range target, in
controlled mode it leaves the state untouched and invokes the external
change callback with `target` exactly once, and in uncontrolled mode it
updates `currentStep` to `target` without invoking the callback. -/
theorem goToStep_spec (s : StepPage) (k : Int) :
    ((k < 1 ∨ (s.totalSteps : Int) < k) → s.goToStep k = { state := s, emitted := [] })
    ∧ (1 ≤ k → k ≤ (s.totalSteps : Int) → s.isControlled = true →
        s.goToStep k = { state := s, emitted := [k] })
    ∧ (1 ≤ k → k ≤ (s.totalSteps : Int) → s.isControlled = false →
        (s.goToStep k).state.currentStep = k ∧ (s.goToStep k).emitted = []
          ∧ (s.goToStep k).state.controlledStep = s.controlledStep
          ∧ (s.goToStep k).state.totalSteps = s.totalSteps) := by
  rcases s with ⟨cs, is, ts⟩
  cases cs <;>
    simp only [StepPage.goToStep, StepPage.isControlled, StepPage.currentStep,
      Option.isSome_none, Option.isSome_some] <;>
    refine ⟨fun h => ?_, fun h1 h2 hc => ?_, fun h1 h2 hc => ?_⟩ <;>
    simp_all <;>
    first
      | rw [if_pos (by omega)]
      | (rw [if_neg (by omega)]; simp [StepPage.currentStep])

/-- C8: `canGoNext` holds exactly when `currentStep < totalSteps` and
`canGoPrev` holds exactly when `currentStep > 1`, in every controller
state; both are functions of the current state, recomputed on each read. -/
theorem canGo_spec (s : StepPage) :
    (s.canGoNext = true ↔ s.currentStep < (s.totalSteps : Int))
    ∧ (s.canGoPrev = true ↔ s.currentStep > 1) := by
  constructor <;> simp [StepPage.canGoNext, StepPage.canGoPrev]

/-- C9: `nextStep()` coincides with `goToStep(currentStep + 1)` and
`prevStep()` with `goToStep(currentStep - 1)`, in every controller state:
same state change and same callback emissions. -/
theorem nextPrev_spec (s : StepPage) :
    s.nextStep = s.goToStep (s.currentStep + 1)
    ∧ s.prevStep = s.goToStep (s.currentStep - 1) :=
  ⟨rfl, rfl⟩

/-- C10: in uncontrolled mode the initial `currentStep` equals the
supplied `defaultStep` exactly, for every integer, with no clamping at
construction; in particular `defaultStep = 7` with the three example
steps registered still reads back `currentStep = 7`, and so does
`defaultStep = 0`. -/
theorem defaultStep_unclamped (d : Int) :
    (StepPage.init none d).isControlled = false
    ∧ (StepPage.init none d).currentStep = d
    ∧ ((StepPage.init none d).registerSteps exampleSteps).currentStep = d
    ∧ ((StepPage.init none 7).registerSteps exampleSteps).totalSteps = 3
    ∧ ((StepPage.init none 7).registerSteps exampleSteps).currentStep = 7
    ∧ ((StepPage.init none 0).registerSteps exampleSteps).currentStep = 0 := by
  refine ⟨rfl, rfl, rfl, ?_, rfl, rfl⟩
  decide

/-- Witness for C1: with three registered steps, `goToStep 5` is a no-op,
`goToStep 3` in controlled mode emits exactly `[3]` without touching
state, and `goToStep 2` in uncontrolled mode sets `currentStep` to 2. -/
theorem goToStep_spec_witness :
    StepPage.goToStep ⟨none, 1, 3⟩ 5 = { state := ⟨none, 1, 3⟩, emitted := [] }
    ∧ StepPage.goToStep ⟨some 2, 1, 3⟩ 3 = { state := ⟨some 2, 1, 3⟩, emitted := [3] }
    ∧ (StepPage.goToStep ⟨none, 1, 3⟩ 2).state.currentStep = 2 :=
  ⟨(goToStep_spec ⟨none, 1, 3⟩ 5).1 (by decide),
   (goToStep_spec ⟨some 2, 1, 3⟩ 3).2.1 (by decide) (by decide) rfl,
   ((goToStep_spec ⟨none, 1, 3⟩ 2).2.2 (by decide) (by decide) rfl).1⟩

/-- C5: after registering a step list of length n, `totalSteps = n`;
registering the same list again changes nothing (idempotent), and
registration depends only on the length of the list, not its content. -/
theorem registerSteps_spec (s : StepPage) (steps steps2 : List StepItemData)
    (h : steps.length = steps2.length) :
    (s.registerSteps steps).totalSteps = steps.length
    ∧ (s.registerSteps steps).registerSteps steps = s.registerSteps steps
    ∧ s.registerSteps steps = s.registerSteps steps2 := by
  refine ⟨rfl, rfl, ?_⟩
  simp [StepPage.registerSteps, StepPage.setTotalSteps, h]

/-- Witness for C5: registering the example step list is the same as
registering a content-wise different list of the same length. -/
theorem registerSteps_spec_witness :
    StepPage.registerSteps ⟨none, 1, 0⟩ exampleSteps
      = StepPage.registerSteps ⟨none, 1, 0⟩
          [⟨"X", some "x", some 1⟩, ⟨"Y", none, none⟩, ⟨"Z", none, none⟩] :=
  (registerSteps_spec ⟨none, 1, 0⟩ exampleSteps
    [⟨"X", some "x", some 1⟩, ⟨"Y", none, none⟩, ⟨"Z", none, none⟩] (by decide)).2.2

/-- Counterexample to C2 as stated: mounting an uncontrolled `StepPage`
with `defaultStep = 7` and registering the three example steps reaches a
state with `totalSteps = 3` registered whose `currentStep = 7` violates
`1 ≤ currentStep ≤ max(totalSteps, 1)` — `defaultStep` is never clamped. -/
theorem inv_violated_reachable :
    StepPage.Reachable ((StepPage.init none 7).registerSteps exampleSteps)
    ∧ ((StepPage.init none 7).registerSteps exampleSteps).totalSteps = 3
    ∧ ¬ ((StepPage.init none 7).registerSteps exampleSteps).Inv :=
  ⟨⟨none, 7, [Op.register exampleSteps], rfl⟩, rfl, by decide⟩

/-- C2 amended: the navigation operations `goToStep`, `nextStep` and
`prevStep` preserve the invariant `1 ≤ currentStep ≤ max(totalSteps, 1)`
in every controller state; but not every reachable registered state
satisfies the invariant, since neither the initial `defaultStep` nor an
externally supplied controlled step is validated, and re-registration
with a smaller count does not clamp `currentStep`. -/
theorem inv_preserved_by_navigation (s : StepPage) (k : Int) (h : s.Inv) :
    ((s.goToStep k).state).Inv ∧ (s.nextStep.state).Inv ∧ (s.prevStep.state).Inv := by
  have key : ∀ j : Int, ((s.goToStep j).state).Inv := by
    intro j
    rcases s with ⟨cs, is, ts⟩
    cases cs <;>
      simp only [StepPage.goToStep, StepPage.isControlled] <;>
      split_ifs <;>
      simp_all [StepPage.Inv, StepPage.currentStep]
  exact ⟨key k, key _, key _⟩

/-- Witness for the amended C2: from the in-range state with
`currentStep = 2` of 3, `goToStep 1`, `nextStep` and `prevStep` all land
in invariant-satisfying states. -/
theorem inv_preserved_by_navigation_witness :
    ((StepPage.goToStep ⟨none, 2, 3⟩ 1).state).Inv
    ∧ ((StepPage.nextStep ⟨none, 2, 3⟩).state).Inv
    ∧ ((StepPage.prevStep ⟨none, 2, 3⟩).state).Inv :=
  inv_preserved_by_navigation ⟨none, 2, 3⟩ 1 (by decide)

/-- Helper: rendering a cons of panes keeps the head exactly when its
declared step matches `currentStep`. -/
theorem renderedPanes_cons {α : Type} (c : Int) (p : Int × α) (ps : List (Int × α)) :
    renderedPanes c (p :: ps)
      = if c = p.1 then p.2 :: renderedPanes c ps else renderedPanes c ps := by
  by_cases h : c = p.1 <;> simp [renderedPanes, StepItem, h]

/-- Helper: when no pane is declared for `currentStep`, nothing renders. -/
theorem renderedPanes_eq_nil {α : Type} (c : Int) (panes : List (Int × α))
    (h : c ∉ panes.map Prod.fst) : renderedPanes c panes = [] := by
  induction panes with
  | nil => rfl
  | cons p ps ih =>
    simp only [List.map_cons, List.mem_cons, not_or] at h
    rw [renderedPanes_cons, if_neg h.1, ih h.2]

/-- Helper: with pairwise distinct declared steps, one of which is the
current step, exactly one pane renders. -/
theorem renderedPanes_length_one {α : Type} (c : Int) (panes : List (Int × α))
    (hnd : (panes.map Prod.fst).Nodup) (hmem : c ∈ panes.map Prod.fst) :
    (renderedPanes c panes).length = 1 := by
  induction panes with
  | nil => simp at hmem
  | cons p ps ih =>
    simp only [List.map_cons, List.nodup_cons, List.mem_cons] at hnd hmem
    rw [renderedPanes_cons]
    by_cases h : c = p.1
    · rw [if_pos h, renderedPanes_eq_nil c ps (by rw [h]; exact hnd.1)]
      rfl
    · rw [if_neg h]
      exact ih hnd.2 (hmem.resolve_left h)

/-- C6: a pane declared with step k produces output iff `k = currentStep`
and is logically absent (`none`) otherwise; whatever renders comes from a
pane declared for the current step, and among panes declared for distinct
steps including the current one, exactly one pane is present. -/
theorem stepItem_spec {α : Type} (c k : Int) (x : α) (panes : List (Int × α))
    (hnd : (panes.map Prod.fst).Nodup) (hmem : c ∈ panes.map Prod.fst) :
    ((StepItem c k x).isSome ↔ c = k)
    ∧ (c ≠ k → StepItem c k x = none)
    ∧ (∀ y : α, y ∈ renderedPanes c panes ↔ (c, y) ∈ panes)
    ∧ (renderedPanes c panes).length = 1 := by
  refine ⟨?_, ?_, ?_, renderedPanes_length_one c panes hnd hmem⟩
  · by_cases h : c = k <;> simp [StepItem, h]
  · intro h; simp [StepItem, h]
  · intro y
    simp only [renderedPanes, List.mem_filterMap, StepItem]
    constructor
    · rintro ⟨⟨k1, y1⟩, hp, he⟩
      by_cases h : c = k1
      · simp only [h, ne_eq, not_true_eq_false, if_false, Option.some.injEq] at he
        rw [h, ← he]
        simpa using hp
      · simp [h] at he
    · intro hp
      exact ⟨(c, y), hp, by simp⟩

/-- Witness for C6: with panes declared for steps 1, 2 and 3 and
`currentStep = 2`, exactly one pane is present. -/
theorem stepItem_spec_witness :
    (renderedPanes 2 [(1, "one"), (2, "two"), (3, "three")]).length = 1 :=
  (stepItem_spec 2 2 "x" [(1, "one"), (2, "two"), (3, "three")]
    (by decide) (by decide)).2.2.2

/-- C7: the i-th rendered indicator (1-indexed position `i + 1`) carries
`isCompleted` iff its position is below `currentStep`, `isActive` iff it
equals `currentStep`, `isClickable` iff it is at most `currentStep`, and
is reported disabled exactly when not clickable; clicking a clickable
indicator invokes `goToStep` at its position, and clicking a
non-clickable one changes nothing and emits nothing. -/
theorem indicators_spec (steps : List StepItemData) (c : Int) (s : StepPage)
    (i : Nat) (h : i < (renderIndicators steps c).length) :
    ((renderIndicators steps c).get ⟨i, h⟩).stepNumber = (i : Int) + 1
    ∧ (((renderIndicators steps c).get ⟨i, h⟩).isCompleted = true ↔ (i : Int) + 1 < c)
    ∧ (((renderIndicators steps c).get ⟨i, h⟩).isActive = true ↔ (i : Int) + 1 = c)
    ∧ (((renderIndicators steps c).get ⟨i, h⟩).isClickable = true ↔ (i : Int) + 1 ≤ c)
    ∧ ((renderIndicators steps c).get ⟨i, h⟩).disabled
        = !((renderIndicators steps c).get ⟨i, h⟩).isClickable
    ∧ (((renderIndicators steps c).get ⟨i, h⟩).isClickable = true →
        indicatorClick s ((renderIndicators steps c).get ⟨i, h⟩)
          = s.goToStep ((i : Int) + 1))
    ∧ (((renderIndicators steps c).get ⟨i, h⟩).isClickable = false →
        indicatorClick s ((renderIndicators steps c).get ⟨i, h⟩)
          = { state := s, emitted := [] }) := by
  have hget : (renderIndicators steps c).get ⟨i, h⟩
      = { stepNumber := (i : Int) + 1
          isActive := (i : Int) + 1 == c
          isCompleted := decide ((i : Int) + 1 < c)
          isClickable := decide ((i : Int) + 1 ≤ c)
          disabled := !decide ((i : Int) + 1 ≤ c) } := by
    simp only [renderIndicators, List.get_eq_getElem]
    rw [List.getElem_map, List.getElem_range]
  rw [hget]
  refine ⟨rfl, by simp, by simp, by simp, rfl, ?_, ?_⟩
  · intro hc
    have hc2 : decide ((i : Int) + 1 ≤ c) = true := hc
    simp [indicatorClick, hc2]
  · intro hc
    have hc2 : decide ((i : Int) + 1 ≤ c) = false := hc
    simp [indicatorClick, hc2]

/-- Witness for C7: with `currentStep = 2` among the three example steps,
the third indicator (position 3) is not clickable and clicking it leaves
the controller state unchanged with no callback. -/
theorem indicators_spec_witness :
    ((renderIndicators exampleSteps 2).get
        ⟨2, by decide⟩).isClickable = false
    ∧ indicatorClick ⟨none, 2, 3⟩
        ((renderIndicators exampleSteps 2).get ⟨2, by decide⟩)
      = { state := ⟨none, 2, 3⟩, emitted := [] } :=
  ⟨by decide,
   (indicators_spec exampleSteps 2 ⟨none, 2, 3⟩ 2 (by decide)).2.2.2.2.2.2 (by decide)⟩

/-- C3: when the pre-navigation hook fails, the navigation is not
committed — the controller state is untouched and no callback fires —
the failure propagates as the handler outcome rather than being
swallowed, and on every exit path (success or failure, next or prev) the
footer ends non-loading. -/
theorem footer_failure_spec {E : Type} (f : Footer) (e : E) (r : Except E Unit) :
    (f.handleNext (Except.error e)).footer.page = f.page
    ∧ (f.handleNext (Except.error e)).emitted = []
    ∧ (f.handleNext (Except.error e)).outcome = Except.error e
    ∧ (f.handleNext r).footer.isLoading = false
    ∧ (f.handlePrev (Except.error e)).footer.page = f.page
    ∧ (f.handlePrev (Except.error e)).emitted = []
    ∧ (f.handlePrev (Except.error e)).outcome = Except.error e
    ∧ (f.handlePrev r).footer.isLoading = false := by
  cases r <;> simp [Footer.handleNext, Footer.handlePrev]

/-- C4: in every footer state the next button is disabled exactly when
`!canGoNext || Navigating` and the prev button exactly when
`!canGoPrev || Navigating`; while a hook is pending, a click on either
default button is ignored (no transition, no commit), so a second next
trigger during a pending next hook yields exactly one eventual commit. -/
theorem footer_reentrancy_spec (m m2 : FooterMachine)
    (h2 : m2.isLoading = false) (h3 : m2.pending = Pending.idle)
    (h4 : m2.page.canGoNext = true) :
    m.nextDisabled = (!m.page.canGoNext || m.isLoading)
    ∧ m.prevDisabled = (!m.page.canGoPrev || m.isLoading)
    ∧ (m.isLoading = true →
        m.step FooterEvent.clickNext = (m, 0) ∧ m.step FooterEvent.clickPrev = (m, 0))
    ∧ m2.runCommits
        [FooterEvent.clickNext, FooterEvent.clickNext, FooterEvent.settle true] = 1 := by
  refine ⟨rfl, rfl, fun hl => ?_, ?_⟩
  · constructor <;>
      simp [FooterMachine.step, FooterMachine.nextDisabled, FooterMachine.prevDisabled, hl]
  · rcases m2 with ⟨pg, il, pd⟩
    simp only at h2 h3
    subst h2
    subst h3
    simp [FooterMachine.runCommits, FooterMachine.step, FooterMachine.nextDisabled, h4]

/-- Witness for C4: from an idle footer on step 1 of 3, the trace
click-next, click-next, hook-resolves commits exactly once; and in the
loading state both buttons are disabled. -/
theorem footer_reentrancy_spec_witness :
    FooterMachine.nextDisabled ⟨⟨none, 1, 3⟩, true, Pending.idle⟩ = true
    ∧ FooterMachine.runCommits ⟨⟨none, 1, 3⟩, false, Pending.idle⟩
        [FooterEvent.clickNext, FooterEvent.clickNext, FooterEvent.settle true] = 1 := by
  have h := footer_reentrancy_spec ⟨⟨none, 1, 3⟩, true, Pending.idle⟩
    ⟨⟨none, 1, 3⟩, false, Pending.idle⟩ rfl rfl (by decide)
  exact ⟨by rw [h.1]; decide, h.2.2.2⟩
